import Mathlib

/-!
Verification of the outline parser, text-flow engine and layout resolver of
the `ppt-auto-generator` repository (`src/ppt_generator.py`), shallowly
embedded in Lean 4.  Strings are modelled as `List Char` (Python string
indexing and `len` count code points, as `List Char` does).
-/

/-- Strings of the embedded program: lists of unicode code points. -/
abbrev Str := List Char

/-- Whitespace recognised by Python `str.strip()` (the code-point subset that
can occur here: ASCII whitespace plus the ideographic space). -/
def isPySpace (c : Char) : Bool :=
  c = ' ' || c = '\t' || c = '\n' || c = '\r' || c = '\x0b' || c = '\x0c' || c = '　'

/-- Python `s.strip()`: remove leading and trailing whitespace. -/
def pyStrip (l : Str) : Str :=
  ((l.dropWhile isPySpace).reverse.dropWhile isPySpace).reverse

/-- Python `s.split(sep)` for a one-character separator: `''.split` gives
one empty field, and every separator occurrence opens a new field. -/
def splitOnChar (c : Char) : Str → List Str
  | [] => [[]]
  | a :: rest =>
    match splitOnChar c rest with
    | [] => [[a]]
    | h :: t => if a = c then [] :: h :: t else (a :: h) :: t

/-- Python `s.split(sep, 1)` for a one-character separator: `[s]` when the
separator does not occur, `[before, after]` split at its first occurrence. -/
def pySplitOnce (c : Char) : Str → List Str
  | [] => [[]]
  | a :: rest =>
    if a = c then [[], rest]
    else
      match pySplitOnce c rest with
      | [] => [[a]]
      | h :: t => (a :: h) :: t

/-- Python `s.rfind(ch)` for a one-character needle, as an `Option`:
index of the last occurrence (`none` plays the role of Python's `-1`). -/
def rfindIdx (c : Char) : Str → Option Nat
  | [] => none
  | a :: rest =>
    match rfindIdx c rest with
    | some i => some (i + 1)
    | none => if a = c then some 0 else none

/-! ## Text-flow engine: `add_structured_bullets` (ppt_generator.py lines 193-287) -/

/-- Font size constant `title_size = 9` of `add_structured_bullets`. -/
def title_size : Nat := 9

/-- Font size constant `content_size = 8` of `add_structured_bullets`. -/
def content_size : Nat := 8

/-- One styled text run produced by `add_structured_bullets`
 (text, `font.bold`, `font.size` in points). -/
structure Run where
  text : Str
  bold : Bool
  size : Nat
deriving Repr, DecidableEq

/-- One paragraph of the text frame: its list of runs.  (The uniform
spacing attributes `space_before`/`space_after`/`line_spacing` carry no
text and are not modelled.) -/
structure Para where
  runs : List Run
deriving Repr, DecidableEq

/-- Preferred punctuation priority list of the long-bullet splitter
 (ppt_generator.py line 255). -/
def puncts : List Char := ['，', '、', '；', '。', ' ']

/-- The `for punct in [...]` search of lines 254-259: try each preferred
punctuation mark in priority order against the 40-character window; the
first one whose last occurrence lies after position 20 wins (cut after it),
otherwise fall back to a hard cut at 35. -/
def splitPosLoop (w40 : Str) : List Char → Nat
  | [] => 35
  | p :: ps =>
    match rfindIdx p w40 with
    | some pos => if 20 < pos then pos + 1 else splitPosLoop w40 ps
    | none => splitPosLoop w40 ps

/-- Split position for one iteration of the long-bullet loop:
`split_pos` computed from `words[:40]` (lines 253-259). -/
def splitPos (ws : Str) : Nat := splitPosLoop (ws.take 40) puncts

theorem splitPosLoop_pos (w40 : Str) (ps : List Char) : 1 ≤ splitPosLoop w40 ps := by
  induction ps with
  | nil => simp [splitPosLoop]
  | cons p ps ih =>
    simp only [splitPosLoop]
    cases rfindIdx p w40 with
    | none => exact ih
    | some pos =>
      by_cases h : 20 < pos
      · simp [h]
      · simpa [h] using ih

theorem splitPos_pos (ws : Str) : 1 ≤ splitPos ws := splitPosLoop_pos _ _

/-- The `while len(words) > 35` loop of lines 252-277, as the list of
emitted segments: repeatedly cut `split_pos` characters off the front while
more than 35 remain; a non-empty remainder becomes a final segment. -/
def splitLong (ws : Str) : List Str :=
  if h : 35 < ws.length then
    ws.take (splitPos ws) :: splitLong (ws.drop (splitPos ws))
  else if ws.length ≠ 0 then [ws] else []
termination_by ws.length
decreasing_by
  simp only [List.length_drop]
  have := splitPos_pos ws
  omega

/-- The colon split of `add_structured_bullets` line 210: split once at
the full-width colon when one is present, otherwise at the ASCII colon. -/
def colonParts (b : Str) : List Str :=
  if b.contains '：' then pySplitOnce '：' b else pySplitOnce ':' b

/-- Per-bullet behaviour of `add_structured_bullets` (lines 208-282): the
paragraphs (with their runs) contributed by one bullet string. -/
def processBullet (b : Str) : List Para :=
  if b.contains '：' || b.contains ':' then
    -- "标题：内容" format: split once at the preferred colon (lines 209-214)
    match colonParts b with
    | [t, c] =>
      let title_text := pyStrip t
      let content_text := pyStrip c
      let run1 : Run := ⟨title_text ++ ['：'], true, title_size⟩
      if 25 < content_text.length then
        -- content longer than 25: forced onto its own indented paragraph
        [⟨[run1]⟩, ⟨[⟨' ' :: ' ' :: content_text, false, content_size⟩]⟩]
      else
        -- short content stays on the label line as a second run
        [⟨[run1, ⟨content_text, false, content_size⟩]⟩]
    | _ =>
      -- `len(parts) != 2` fallback of lines 241-246 (unreachable when a
      -- colon is present, kept for fidelity)
      [⟨[⟨b, false, title_size⟩]⟩]
  else
    if 35 < b.length then
      -- long colon-free text: greedy punctuation-aware segmentation,
      -- one paragraph (one run) per segment (lines 248-277)
      (splitLong b).map (fun seg => ⟨[⟨seg, false, content_size⟩]⟩)
    else
      -- short colon-free text: single unmodified run (lines 278-282)
      [⟨[⟨b, false, title_size⟩]⟩]

/-- The whole of `add_structured_bullets` over a bullet list: bullet 0
writes into the frame's initial paragraph and later bullets call
`add_paragraph`, so the resulting paragraph list is the concatenation of
the per-bullet paragraph lists. -/
def add_structured_bullets (bullets : List Str) : List Para :=
  (bullets.map processBullet).flatten

/-- Text of one paragraph: its runs' texts concatenated. -/
def paraText (p : Para) : Str := (p.runs.map Run.text).flatten

/-- Concatenation of all paragraph texts of a paragraph list. -/
def parasText (ps : List Para) : Str := (ps.map paraText).flatten

theorem splitLong_join : ∀ (n : Nat) (ws : Str), ws.length ≤ n →
    (splitLong ws).flatten = ws := by
  intro n
  induction n with
  | zero =>
    intro ws h
    have hws : ws = [] := List.length_eq_zero.mp (Nat.le_zero.mp h)
    subst hws
    rw [splitLong]
    simp
  | succ n ih =>
    intro ws h
    rw [splitLong]
    by_cases h35 : 35 < ws.length
    · have hdrop : (ws.drop (splitPos ws)).length ≤ n := by
        simp only [List.length_drop]
        have := splitPos_pos ws
        omega
      rw [dif_pos h35, List.flatten_cons, ih _ hdrop]
      exact List.take_append_drop _ _
    · simp only [h35, dif_neg, not_false_iff]
      by_cases hz : ws.length ≠ 0
      · simp [hz]
      · simp only [ne_eq, not_not] at hz
        have : ws = [] := List.length_eq_zero.mp hz
        simp [this]

/-- C1: for every colon-free bullet longer than 35 characters, the
concatenation of all paragraph texts produced by the greedy segmentation of
`add_structured_bullets` is exactly the original bullet string. -/
theorem segmentation_round_trip (b : Str)
    (h1 : b.contains '：' = false) (h2 : b.contains ':' = false)
    (h3 : 35 < b.length) :
    parasText (processBullet b) = b ∧
    parasText (add_structured_bullets [b]) = b := by
  have hmain : parasText (processBullet b) = b := by
    unfold processBullet
    rw [h1, h2]
    simp only [Bool.or_self, Bool.false_eq_true, if_false, h3, if_pos]
    unfold parasText
    rw [List.map_map]
    have hcomp : (paraText ∘ fun seg => Para.mk [⟨seg, false, content_size⟩]) = id := by
      funext seg
      simp [paraText]
    rw [hcomp, List.map_id]
    exact splitLong_join b.length b (Nat.le_refl _)
  refine ⟨hmain, ?_⟩
  simpa [add_structured_bullets] using hmain

/-- Concrete 36-character colon-free bullet for the C1 witness. -/
def c1Bullet : Str := List.replicate 36 'a'

/-- Witness for C1 at a concrete 36-character colon-free bullet. -/
theorem segmentation_round_trip_witness :
    parasText (processBullet c1Bullet) = c1Bullet ∧
    parasText (add_structured_bullets [c1Bullet]) = c1Bullet :=
  segmentation_round_trip c1Bullet (by decide) (by decide) (by decide)

/-! ## Colon split (C5, C6) -/

/-- Label text of a colon bullet (`parts[0].strip()`, line 213). -/
def title_textOf (b : Str) : Str := pyStrip ((colonParts b).getD 0 [])

/-- Body text of a colon bullet (`parts[1].strip()`, line 214). -/
def content_textOf (b : Str) : Str := pyStrip ((colonParts b).getD 1 [])

theorem pySplitOnce_eq_of_mem (c : Char) (l : Str) (h : c ∈ l) :
    pySplitOnce c l =
      [l.take (l.findIdx (· = c)), l.drop (l.findIdx (· = c) + 1)] := by
  induction l with
  | nil => cases h
  | cons a rest ih =>
    by_cases hac : a = c
    · subst hac
      simp [pySplitOnce, List.findIdx_cons]
    · have hmem : c ∈ rest := by
        rcases List.mem_cons.mp h with h1 | h1
        · exact absurd h1.symm hac
        · exact h1
      have hda : decide (a = c) = false := decide_eq_false hac
      simp only [pySplitOnce, if_neg hac, ih hmem, List.findIdx_cons, hda,
        cond_false, List.take_succ_cons, List.drop_succ_cons]

theorem colonParts_two (b : Str) (h : (b.contains '：' || b.contains ':') = true) :
    ∃ t c, colonParts b = [t, c] := by
  unfold colonParts
  by_cases hf : b.contains '：' = true
  · rw [if_pos hf]
    exact ⟨_, _, pySplitOnce_eq_of_mem _ _ (by simpa using hf)⟩
  · have ha : b.contains ':' = true := by
      rcases Bool.or_eq_true_iff.mp h with h1 | h1
      · exact absurd h1 hf
      · exact h1
    rw [if_neg hf]
    exact ⟨_, _, pySplitOnce_eq_of_mem _ _ (by simpa using ha)⟩

/-- C5: for every bullet split at a colon, content of length at most 25
stays on the label's line as the single body run; longer content becomes
exactly one additional indented paragraph whose text, after trimming the
2-space indent, is the content verbatim. -/
theorem colon_split_formatting (b : Str)
    (h : (b.contains '：' || b.contains ':') = true) :
    ((content_textOf b).length ≤ 25 →
      processBullet b =
        [⟨[⟨title_textOf b ++ ['：'], true, title_size⟩,
           ⟨content_textOf b, false, content_size⟩]⟩]) ∧
    (25 < (content_textOf b).length →
      processBullet b =
        [⟨[⟨title_textOf b ++ ['：'], true, title_size⟩]⟩,
         ⟨[⟨' ' :: ' ' :: content_textOf b, false, content_size⟩]⟩] ∧
      (' ' :: ' ' :: content_textOf b).drop 2 = content_textOf b) := by
  obtain ⟨t, c, hparts⟩ := colonParts_two b h
  have htitle : title_textOf b = pyStrip t := by
    simp [title_textOf, hparts]
  have hcontent : content_textOf b = pyStrip c := by
    simp [content_textOf, hparts]
  constructor
  · intro hle
    have hnot : ¬ 25 < (pyStrip c).length := by
      rw [← hcontent]; omega
    unfold processBullet
    rw [h, if_pos rfl, hparts]
    simp only [if_neg hnot, htitle, hcontent]
  · intro hgt
    have hyes : 25 < (pyStrip c).length := by rw [← hcontent]; exact hgt
    constructor
    · unfold processBullet
      rw [h, if_pos rfl, hparts]
      simp only [if_pos hyes, htitle, hcontent]
    · rfl

/-- Witness for C5 at two concrete bullets, one with short and one with
long post-colon content. -/
theorem colon_split_formatting_witness :
    (processBullet ("要点：内容".toList) =
      [⟨[⟨"要点：".toList, true, title_size⟩, ⟨"内容".toList, false, content_size⟩]⟩]) ∧
    (processBullet ("k:abcdefghijklmnopqrstuvwxyz".toList) =
      [⟨[⟨"k：".toList, true, title_size⟩]⟩,
       ⟨[⟨"  abcdefghijklmnopqrstuvwxyz".toList, false, content_size⟩]⟩]) := by
  constructor
  · have := (colon_split_formatting ("要点：内容".toList) (by decide)).1 (by decide)
    rw [this]
    decide
  · have := ((colon_split_formatting ("k:abcdefghijklmnopqrstuvwxyz".toList) (by decide)).2
      (by decide)).1
    rw [this]
    decide

/-- Modelled from the claim's words, not from the code: split at the first
occurrence of a recognized colon character (either code point). -/
def firstRecognizedColonSplit (b : Str) : Str × Str :=
  let k := b.findIdx (fun ch => ch = '：' || ch = ':')
  (b.take k, b.drop (k + 1))

/-- C6 counterexample: on a bullet containing both colon code points with
the ASCII colon first, the code splits at the later full-width colon, not at
the first recognized colon. -/
theorem colon_split_not_first_occurrence :
    colonParts ("a:b：c".toList) = ["a:b".toList, "c".toList] ∧
    firstRecognizedColonSplit ("a:b：c".toList) = ("a".toList, "b：c".toList) ∧
    colonParts ("a:b：c".toList) ≠
      [(firstRecognizedColonSplit ("a:b：c".toList)).1,
       (firstRecognizedColonSplit ("a:b：c".toList)).2] := by
  refine ⟨by decide, by decide, by decide⟩

/-- C6 amended: the bullet is split at the first occurrence of the
full-width colon when one is present, and otherwise at the first occurrence
of the ASCII colon. -/
theorem colon_split_prefers_fullwidth (b : Str) :
    (b.contains '：' = true →
      colonParts b =
        [b.take (b.findIdx (· = '：')), b.drop (b.findIdx (· = '：') + 1)]) ∧
    (b.contains '：' = false → b.contains ':' = true →
      colonParts b =
        [b.take (b.findIdx (· = ':')), b.drop (b.findIdx (· = ':') + 1)]) := by
  constructor
  · intro hf
    unfold colonParts
    rw [if_pos hf]
    exact pySplitOnce_eq_of_mem _ _ (by simpa using hf)
  · intro hf ha
    unfold colonParts
    rw [hf]
    simp only [Bool.false_eq_true, if_false]
    exact pySplitOnce_eq_of_mem _ _ (by simpa using ha)

/-- Witness for the amended C6 at two concrete bullets. -/
theorem colon_split_prefers_fullwidth_witness :
    (colonParts ("a:b：c".toList) =
      [("a:b：c".toList).take (("a:b：c".toList).findIdx (· = '：')),
       ("a:b：c".toList).drop (("a:b：c".toList).findIdx (· = '：') + 1)]) ∧
    (colonParts ("x:y".toList) =
      [("x:y".toList).take (("x:y".toList).findIdx (· = ':')),
       ("x:y".toList).drop (("x:y".toList).findIdx (· = ':') + 1)]) :=
  ⟨(colon_split_prefers_fullwidth ("a:b：c".toList)).1 (by decide),
   (colon_split_prefers_fullwidth ("x:y".toList)).2 (by decide) (by decide)⟩

/-! ## Layout resolver: quote truncation (C2, C10) -/

/-- Quote resolution of `create_content_with_image_slide`
 (ppt_generator.py lines 518-521): a quote longer than 60 characters is cut
to its first 57 characters plus a 3-dot ellipsis. -/
def resolveContentQuote (q : Str) : Str :=
  if 60 < q.length then q.take 57 ++ ['.', '.', '.'] else q

/-- Quote text set on the content-slide quote box (line 522):
the light-bulb prefix followed by the resolved quote. -/
def contentQuoteRendered (q : Str) : Str :=
  '💡' :: ' ' :: resolveContentQuote q

/-- Quote text set on the ending-slide quote box
 (`create_ending_slide`, line 717): the light-bulb prefix followed by the
quote itself, with no truncation. -/
def endingQuoteRendered (q : Str) : Str :=
  '💡' :: ' ' :: q

/-- C2: for every content-slide quote longer than 60 characters, the
resolved quote text is the first 57 characters plus the 3-character
ellipsis, has length exactly 60, and ends in the ellipsis. -/
theorem content_quote_truncation (q : Str) (h : 60 < q.length) :
    resolveContentQuote q = q.take 57 ++ ['.', '.', '.'] ∧
    (resolveContentQuote q).length = 60 ∧
    List.IsSuffix ['.', '.', '.'] (resolveContentQuote q) := by
  have heq : resolveContentQuote q = q.take 57 ++ ['.', '.', '.'] := by
    unfold resolveContentQuote
    rw [if_pos h]
  refine ⟨heq, ?_, ?_⟩
  · rw [heq]
    simp only [List.length_append, List.length_take, List.length_cons,
      List.length_nil]
    omega
  · exact ⟨q.take 57, heq.symm⟩

/-- Concrete 61-character quote for the C2 witness. -/
def c2Quote : Str := List.replicate 61 'x'

/-- Witness for C2 at a concrete 61-character quote. -/
theorem content_quote_truncation_witness :
    resolveContentQuote c2Quote = c2Quote.take 57 ++ ['.', '.', '.'] ∧
    (resolveContentQuote c2Quote).length = 60 ∧
    List.IsSuffix ['.', '.', '.'] (resolveContentQuote c2Quote) :=
  content_quote_truncation c2Quote (by decide)

/-- C10: the ending slide renders its quote verbatim at any length (the
rendered text is the 2-character prefix followed by the quote unchanged),
while the content-slide resolution does alter any quote longer than 60
characters. -/
theorem ending_quote_no_ceiling (q : Str) :
    (endingQuoteRendered q).drop 2 = q ∧
    (endingQuoteRendered q).length = q.length + 2 ∧
    (60 < q.length → resolveContentQuote q ≠ q) := by
  refine ⟨rfl, by simp [endingQuoteRendered], ?_⟩
  intro h
  have hlen := (content_quote_truncation q h).2.1
  intro hcontra
  rw [hcontra] at hlen
  omega

/-- Witness for C10 at a concrete 61-character quote. -/
theorem ending_quote_no_ceiling_witness :
    (endingQuoteRendered c2Quote).drop 2 = c2Quote ∧
    resolveContentQuote c2Quote ≠ c2Quote :=
  ⟨(ending_quote_no_ceiling c2Quote).1,
   (ending_quote_no_ceiling c2Quote).2.2 (by decide)⟩

/-! ## Layout catalog (C4): `AutoPPTGeneratorV3.LAYOUTS` lines 104-135 and
the canvas size of `__init__` lines 140-141 -/

/-- A rectangle in canvas coordinates (x, y, width, height in inches). -/
structure Area where
  x : ℚ
  y : ℚ
  w : ℚ
  h : ℚ

/-- One entry of the layout catalog: display name, text area, image area. -/
structure LayoutDef where
  zhName : Str
  text_area : Area
  image_area : Area

/-- Canvas width `prs.slide_width = Inches(10)` (line 140). -/
def canvasWidth : ℚ := 10

/-- Canvas height `prs.slide_height = Inches(5.625)` (line 141). -/
def canvasHeight : ℚ := 5.625

/-- The six-entry static layout catalog `AutoPPTGeneratorV3.LAYOUTS`
 (lines 104-135), in dict insertion order. -/
def LAYOUTS : List (Str × LayoutDef) :=
  [("left_text_right_image".toList,
      ⟨"左文右图".toList, ⟨0.3, 1.3, 4.5, 3.5⟩, ⟨5.0, 1.3, 4.5, 3.5⟩⟩),
   ("right_text_left_image".toList,
      ⟨"右文左图".toList, ⟨5.0, 1.3, 4.5, 3.5⟩, ⟨0.3, 1.3, 4.5, 3.5⟩⟩),
   ("top_text_bottom_image".toList,
      ⟨"上文下图".toList, ⟨0.3, 1.2, 9.4, 1.5⟩, ⟨2.5, 2.8, 5, 2.2⟩⟩),
   ("large_image_small_text".toList,
      ⟨"大图配文".toList, ⟨6.0, 1.3, 3.5, 3.5⟩, ⟨0.3, 1.2, 5.5, 3.5⟩⟩),
   ("balanced".toList,
      ⟨"平衡布局".toList, ⟨0.3, 1.3, 4.5, 3.5⟩, ⟨5.0, 1.3, 4.5, 3.5⟩⟩),
   ("emphasis_text".toList,
      ⟨"文字为主".toList, ⟨0.3, 1.3, 6.2, 3.5⟩, ⟨6.8, 1.5, 2.8, 3⟩⟩)]

/-- An area lies fully within the 10 by 5.625 canvas. -/
def inBounds (a : Area) : Prop :=
  0 ≤ a.x ∧ 0 ≤ a.y ∧ a.x + a.w ≤ canvasWidth ∧ a.y + a.h ≤ canvasHeight

/-- C4: for each of the six catalog layouts, both the text area and the
image area lie fully within the 10 by 5.625 canvas. -/
theorem layouts_within_canvas :
    ∀ p ∈ LAYOUTS, inBounds p.2.text_area ∧ inBounds p.2.image_area := by
  intro p hp
  fin_cases hp <;>
    exact ⟨⟨by norm_num, by norm_num, by norm_num [canvasWidth], by norm_num [canvasHeight]⟩,
           ⟨by norm_num, by norm_num, by norm_num [canvasWidth], by norm_num [canvasHeight]⟩⟩

/-- Witness for C4 at the first catalog entry. -/
theorem layouts_within_canvas_witness :
    inBounds (⟨0.3, 1.3, 4.5, 3.5⟩ : Area) ∧ inBounds (⟨5.0, 1.3, 4.5, 3.5⟩ : Area) :=
  layouts_within_canvas
    ("left_text_right_image".toList,
      ⟨"左文右图".toList, ⟨0.3, 1.3, 4.5, 3.5⟩, ⟨5.0, 1.3, 4.5, 3.5⟩⟩)
    (by simp [LAYOUTS])

/-! ## Outline parser: `parse_outline_to_json` (ppt_generator.py lines 999-1191) -/

/-- Python substring test `needle in s`. -/
def hasSub (needle : Str) : Str → Bool
  | [] => needle.isEmpty
  | a :: rest => needle.isPrefixOf (a :: rest) || hasSub needle rest

/-- Python `s.replace('**', '')`: drop non-overlapping double-star pairs
left to right (line 1023). -/
def removeDoubleStar : Str → Str
  | '*' :: '*' :: rest => removeDoubleStar rest
  | c :: rest => c :: removeDoubleStar rest
  | [] => []

/-- Remainder after the first closing bracket, if any. -/
def afterFirstClose : Str → Option Str
  | [] => none
  | c :: rest => if c = ']' then some rest else afterFirstClose rest

theorem afterFirstClose_length :
    ∀ (l r : Str), afterFirstClose l = some r → r.length < l.length := by
  intro l
  induction l with
  | nil => intro r h; cases h
  | cons c rest ih =>
    intro r h
    unfold afterFirstClose at h
    by_cases hc : c = ']'
    · rw [if_pos hc] at h
      cases h
      simp
    · rw [if_neg hc] at h
      have := ih r h
      simp only [List.length_cons]
      omega

/-- Fuel-driven scan for `re.sub(r'\[.*?\]', '', s)`: each step consumes at
least one character (`afterFirstClose_length`), so fuel equal to the string
length always suffices; structural recursion on the fuel keeps the
function kernel-reducible. -/
def removeBracketsFuel : Nat → Str → Str
  | 0, l => l
  | _ + 1, [] => []
  | fuel + 1, c :: rest =>
    if c = '[' then
      match afterFirstClose rest with
      | some r => removeBracketsFuel fuel r
      | none => c :: rest
    else c :: removeBracketsFuel fuel rest

/-- Python `re.sub(r'\[.*?\]', '', s)` (line 1024): each non-greedy match
runs from a `[` to the first following `]`; a `[` with no later `]` matches
nothing (and then nothing after it can match either). -/
def removeBrackets (l : Str) : Str := removeBracketsFuel l.length l

/-- The parser's `clean_text` helper (lines 1021-1026): strip markdown
asterisks, drop bracket groups, drop double quotes, then strip whitespace. -/
def clean_text (s : Str) : Str :=
  pyStrip ((removeBrackets ((removeDoubleStar s).filter (fun c => c ≠ '*'))).filter
    (fun c => c ≠ '"'))

/-- Python `re.sub(r'大纲$', '', title)` of line 1057: remove one trailing
"大纲" suffix. -/
def removeOutlineSuffix (t : Str) : Str :=
  if ("大纲".toList).isSuffixOf t then t.take (t.length - 2) else t

/-- Character class `[\s：:]` of the section-header pattern. -/
def isSpaceColon (c : Char) : Bool := isPySpace c || c = '：' || c = ':'

/-- One backtracking attempt of `re.match(r'第.+[页节][\s：:]+(.+)', l)`
with the `[页节]` character at index `pos`: the leading `.+` needs at least
one character (so `pos ≥ 2`), the separator class run is taken greedily but
gives one character back when the final `(.+)` would otherwise be empty. -/
def sectionGroupAt (l : Str) (pos : Nat) : Option Str :=
  if l.head? = some '第' ∧ 2 ≤ pos ∧ (l.get? pos = some '页' ∨ l.get? pos = some '节') then
    let m := ((l.drop (pos + 1)).takeWhile isSpaceColon).length
    if m = 0 then none
    else if pos + 1 + m < l.length then some (l.drop (pos + 1 + m))
    else if 2 ≤ m then some (l.drop (pos + m))
    else none
  else none

/-- Backtracking search over candidate `[页节]` positions, largest first
 (the leading `.+` is greedy). -/
def sectionSearch (l : Str) : Nat → Option Str
  | 0 => none
  | p + 1 =>
    match sectionGroupAt l (p + 1) with
    | some g => some g
    | none => sectionSearch l p

/-- Group 1 of `re.match(r'第.+[页节][\s：:]+(.+)', l)`, when the pattern
matches (line 1032). -/
def sectionRegexGroup (l : Str) : Option Str :=
  if l.length = 0 then none else sectionSearch l (l.length - 1)

/-- The parser's `extract_title_from_section` helper (lines 1028-1038):
`none` marks the cover/ending special pages. -/
def extract_title_from_section (line : Str) : Option Str :=
  let l := pyStrip (line.dropWhile (fun c => c = '#'))
  match sectionRegexGroup l with
  | some g => some (clean_text g)
  | none =>
    if hasSub ("封面".toList) l || hasSub ("结语".toList) l || hasSub ("结尾".toList) l then
      none
    else some (clean_text l)

/-- The bullet-line test and prefix removal of lines 1117-1118:
`re.match(r'^[\s]*[-*]\s+', original_line)` and the corresponding
`re.sub(..., '', original_line)`. -/
def bulletRemainder (l : Str) : Option Str :=
  match l.dropWhile isPySpace with
  | c :: rest =>
    if c = '-' ∨ c = '*' then
      match rest with
      | d :: _ => if isPySpace d then some (rest.dropWhile isPySpace) else none
      | [] => none
    else none
  | [] => none

/-- One slide record of the parser's output (the stringly-typed Python
dict, with `none` marking an absent key). -/
structure Slide where
  type : Str
  title : Str := []
  subtitle : Option Str := none
  slogan : Option Str := none
  bullets : Option (List Str) := none
  quote : Option Str := none
  layout : Option Str := none
  image_desc : Option Str := none
  image : Option Str := none
deriving Repr, DecidableEq

/-- The `metadata` object of the parser's output (lines 1182-1187). -/
structure Metadata where
  title : Str
  theme : Str
  version : Str
  total_slides : Nat
deriving Repr, DecidableEq

/-- The full document model returned by `parse_outline_to_json`. -/
structure ParseResult where
  metadata : Metadata
  slides : List Slide
deriving Repr, DecidableEq

/-- The parser's mutable state (lines 1014-1018): collected slides, the
in-progress slide, pending cover title/subtitle, and the layout rotation
counter. -/
structure PState where
  slides : List Slide
  current : Option Slide
  cover_title : Str
  cover_subtitle : Str
  layout_index : Nat
deriving Repr, DecidableEq

/-- The two-entry layout rotation list of the parser (line 1019). -/
def twoLayouts : List Str :=
  ["left_text_right_image".toList, "right_text_left_image".toList]

/-- The `_cover_placeholder` pseudo-slide (line 1073). -/
def placeholderSlide : Slide := { type := "_cover_placeholder".toList }

/-- A freshly opened `content_image` slide (lines 1087-1094 and
1105-1112): layout from the two-entry rotation, default image descriptor
and default image path derived from the rotation counter. -/
def mkContentSlide (t : Str) (li : Nat) : Slide :=
  { type := "content_image".toList
    title := t
    bullets := some []
    layout := some (twoLayouts.getD (li % 2) [])
    image_desc := some (t ++ "示意图".toList)
    image := some ("images/slide_".toList ++ Nat.toDigits 10 (li + 1) ++ ".png".toList) }

/-- The default ending slide appended when the outline produced none
 (lines 1172-1177). -/
def defaultEndingSlide : Slide :=
  { type := "ending".toList
    title := "谢谢观看".toList
    bullets := some ["欢迎交流讨论".toList]
    quote := some ("合规运作，价值创造".toList) }

/-- One iteration of the parser's main `for line in lines` loop
 (lines 1045-1150), in the source's branch order. -/
def processLine (st : PState) (original_line : Str) : PState :=
  let line := pyStrip original_line
  -- blank lines and separators (line 1050)
  if line.isEmpty || ("---".toList).isPrefixOf line then st
  -- document title: '# ' but not '## ' (lines 1054-1061)
  else if ("# ".toList).isPrefixOf line && !(("## ".toList).isPrefixOf line) then
    let title := clean_text (pyStrip (removeOutlineSuffix (pyStrip (line.drop 2))))
    if title.isEmpty then st else { st with cover_title := title }
  -- section header: '## ' but not '### ' (lines 1064-1096)
  else if ("## ".toList).isPrefixOf line && !(("### ".toList).isPrefixOf line) then
    let slides1 := match st.current with
      | some c => st.slides ++ [c]
      | none => st.slides
    match extract_title_from_section line with
    | none => { st with slides := slides1, current := some placeholderSlide }
    | some t =>
      if hasSub ("封面".toList) line then
        { st with slides := slides1, current := some placeholderSlide }
      else if hasSub ("总结".toList) t || hasSub ("结语".toList) t || hasSub ("结尾".toList) t then
        { st with
          slides := slides1
          current := some { type := "ending".toList
                            title := t
                            bullets := some []
                            quote := some [] } }
      else
        { st with
          slides := slides1
          current := some (mkContentSlide t st.layout_index)
          layout_index := st.layout_index + 1 }
  -- subsection header: '### ' (lines 1099-1114)
  else if ("### ".toList).isPrefixOf line then
    let slides1 := match st.current with
      | some c =>
        if c.type ≠ "_cover_placeholder".toList then st.slides ++ [c] else st.slides
      | none => st.slides
    { st with
      slides := slides1
      current := some (mkContentSlide (clean_text (line.drop 4)) st.layout_index)
      layout_index := st.layout_index + 1 }
  else
    -- bullet lines, tested on the original (unstripped) line (lines 1117-1130)
    match bulletRemainder original_line with
    | some raw =>
      let bullet_text := clean_text raw
      match st.current with
      | none => st
      | some c =>
        if c.type = "_cover_placeholder".toList then
          if hasSub ("标题".toList) bullet_text && bullet_text.contains '：' then
            { st with cover_title := pyStrip ((pySplitOnce '：' bullet_text).getD 1 []) }
          else if hasSub ("副标题".toList) bullet_text && bullet_text.contains '：' then
            -- dead branch: "标题" is a substring of "副标题", so the branch
            -- above always fires first when this condition holds
            { st with cover_subtitle := pyStrip ((pySplitOnce '：' bullet_text).getD 1 []) }
          else st
        else if c.bullets.isSome && !bullet_text.isEmpty then
          { st with current := some { c with bullets := some (c.bullets.getD [] ++ [bullet_text]) } }
        else st
    | none =>
      -- quote lines (lines 1133-1136)
      if ("> ".toList).isPrefixOf line then
        match st.current with
        | some c =>
          if c.type ≠ "_cover_placeholder".toList then
            { st with current := some { c with quote := some (clean_text (line.drop 2)) } }
          else st
        | none => st
      -- emphasised special paragraphs are skipped (lines 1139-1141)
      else if ("**".toList).isPrefixOf line && hasSub ("**".toList) (line.drop 2) then st
      -- other text (lines 1144-1150)
      else
        match st.current with
        | none =>
          if st.cover_subtitle.isEmpty then { st with cover_subtitle := clean_text line }
          else st
        | some c =>
          if c.bullets.isSome then
            let cleaned := clean_text line
            if !cleaned.isEmpty && !(("**".toList).isPrefixOf cleaned) then
              { st with current := some { c with bullets := some (c.bullets.getD [] ++ [cleaned]) } }
            else st
          else st

/-- Closing of the last in-progress slide at end of input (lines 1152-1154):
appended unless it is the cover placeholder. -/
def closeLast (st : PState) : List Slide :=
  match st.current with
  | some c =>
    if c.type ≠ "_cover_placeholder".toList then st.slides ++ [c] else st.slides
  | none => st.slides

/-- The synthesized cover slide (lines 1160-1165), with the default
subtitle when none was accumulated. -/
def coverSlideOf (st : PState) : Slide :=
  { type := "cover".toList
    title := st.cover_title
    subtitle := some (if st.cover_subtitle.isEmpty then "专业培训课程".toList
                      else st.cover_subtitle)
    slogan := some [] }

/-- The default-ending pass (lines 1168-1178): append `defaultEndingSlide`
when no ending slide was produced. -/
def appendEndingIfMissing (l : List Slide) : List Slide :=
  if l.any (fun s => s.type == "ending".toList) then l
  else l ++ [defaultEndingSlide]

/-- The parser's post-loop assembly (lines 1152-1191): close the last real
slide, drop placeholders, prepend the synthesized cover, append a default
ending when none was produced, and fill in the metadata. -/
def finalize (st : PState) : ParseResult :=
  let slides3 := appendEndingIfMissing
    ((closeLast st).filter (fun s => s.type != "_cover_placeholder".toList))
  { metadata := { title := st.cover_title
                  theme := "business_gray".toList
                  version := "3.9".toList
                  total_slides := slides3.length + 1 }
    slides := coverSlideOf st :: slides3 }

/-- The parser's initial state (lines 1014-1018). -/
def initState : PState := ⟨[], none, "演示文稿".toList, [], 0⟩

/-- The whole of `parse_outline_to_json`: strip the input, split it into
lines, run the line loop, and assemble the document. -/
def parse_outline_to_json (text : Str) : ParseResult :=
  finalize ((splitOnChar '\n' (pyStrip text)).foldl processLine initState)

/-- The renderer's `auto_select_layout` (lines 188-191): rotation over the
full six-entry catalog, driven by the renderer's own slide counter. -/
def auto_select_layout (slide_index : Nat) : Str :=
  (LAYOUTS.map Prod.fst).getD (slide_index % (LAYOUTS.map Prod.fst).length) []

/-! ## C9: the parser is total and always yields a well-formed document -/

theorem appendEndingIfMissing_length (l : List Slide) :
    1 ≤ (appendEndingIfMissing l).length := by
  unfold appendEndingIfMissing
  by_cases h : l.any (fun s => s.type == "ending".toList) = true
  · rw [if_pos h]
    obtain ⟨x, hx, -⟩ := List.any_eq_true.mp h
    exact List.length_pos.mpr (List.ne_nil_of_mem hx)
  · rw [if_neg h]
    simp

/-- C9: for every input text, the parser terminates with a document that
has metadata and at least two slides (cover plus ending), the first slide
is the cover, and the declared slide count equals the actual count.  (The
parser is a total function of its input; no line content can make it
fail.) -/
theorem parser_never_fails (text : Str) :
    2 ≤ (parse_outline_to_json text).slides.length ∧
    ((parse_outline_to_json text).slides.head?).map Slide.type =
      some ("cover".toList) ∧
    (parse_outline_to_json text).metadata.total_slides =
      (parse_outline_to_json text).slides.length := by
  unfold parse_outline_to_json finalize
  refine ⟨?_, rfl, ?_⟩
  · simp only [List.length_cons]
    have := appendEndingIfMissing_length
      (((closeLast ((splitOnChar '\n' (pyStrip text)).foldl processLine initState)).filter
        (fun s => s.type != "_cover_placeholder".toList)))
    omega
  · simp only [List.length_cons]

/-! ## C7: the end-to-end demo outline -/

/-- The end-to-end demo outline of the spec. -/
def demoOutline : Str :=
  "# Demo\n## Chapter One\n### Topic\n- Label: short\n> A quote".toList

/-- The document the parser actually produces for `demoOutline`. -/
def demoExpected : ParseResult :=
  { metadata := { title := "Demo".toList
                  theme := "business_gray".toList
                  version := "3.9".toList
                  total_slides := 4 }
    slides :=
      [{ type := "cover".toList
         title := "Demo".toList
         subtitle := some ("专业培训课程".toList)
         slogan := some [] },
       { type := "content_image".toList
         title := "Chapter One".toList
         bullets := some []
         layout := some ("left_text_right_image".toList)
         image_desc := some ("Chapter One示意图".toList)
         image := some ("images/slide_1.png".toList) },
       { type := "content_image".toList
         title := "Topic".toList
         bullets := some ["Label: short".toList]
         quote := some ("A quote".toList)
         layout := some ("right_text_left_image".toList)
         image_desc := some ("Topic示意图".toList)
         image := some ("images/slide_2.png".toList) },
       defaultEndingSlide] }

/-- C7 counterexample: the demo outline parses to 4 slides, not 3 — the
"## Chapter One" line opens a content slide of its own rather than being a
mere chapter marker. -/
theorem demo_outline_not_three_slides :
    (parse_outline_to_json demoOutline).slides.length = 4 ∧
    (parse_outline_to_json demoOutline).slides.length ≠ 3 := by
  refine ⟨by decide, by decide⟩

/-- C7 amended: the demo outline parses to exactly 4 slides — synthesized
cover "Demo", an empty content slide "Chapter One", a content slide "Topic"
carrying the bullet "Label: short" (which the renderer splits into label
"Label" and body "short") and quote "A quote", and the synthesized default
ending. -/
theorem demo_outline_parse :
    parse_outline_to_json demoOutline = demoExpected ∧
    processBullet ("Label: short".toList) =
      [⟨[⟨"Label：".toList, true, title_size⟩,
         ⟨"short".toList, false, content_size⟩]⟩] := by
  refine ⟨by decide, by decide⟩

/-! ## C3: layout rotation of the Document Builder -/

/-- Modelled from the claim's words, not from the code: round-robin over
the six-entry layout catalog, `index = rotationCounter % 6`. -/
def claimedAutoLayout (n : Nat) : Str :=
  (LAYOUTS.map Prod.fst).getD (n % 6) []

/-- Outline opening three content slides in a row. -/
def c3Outline : Str := "### A\n### B\n### C".toList

/-- C3 counterexample: the third auto-assigned content slide (rotation
counter 2) receives "left_text_right_image" from the parser's two-entry
rotation, not the "top_text_bottom_image" that round-robin over the
six-entry catalog would give. -/
theorem layout_rotation_not_six_entry :
    (parse_outline_to_json c3Outline).slides.map Slide.layout =
      [none, some ("left_text_right_image".toList),
       some ("right_text_left_image".toList),
       some ("left_text_right_image".toList), none] ∧
    claimedAutoLayout 2 = "top_text_bottom_image".toList ∧
    ((parse_outline_to_json c3Outline).slides.map Slide.layout).getD 3 none ≠
      some (claimedAutoLayout 2) := by
  refine ⟨by decide, by decide, by decide⟩

/-- C3 amended: a content slide opened with rotation counter `n` receives
its layout by round-robin over the parser's two-entry layout list
 (`index = counter % 2`, counter incremented on each open), so rotation is
periodic with period 2 — and therefore also agrees at distance 6. -/
theorem layout_rotation_two_entry (t : Str) (n : Nat) :
    (mkContentSlide t n).layout = some (twoLayouts.getD (n % 2) []) ∧
    (mkContentSlide t (n + 2)).layout = (mkContentSlide t n).layout ∧
    (mkContentSlide t (n + 6)).layout = (mkContentSlide t n).layout := by
  refine ⟨rfl, ?_, ?_⟩
  · have h2 : (n + 2) % 2 = n % 2 := by omega
    simp [mkContentSlide, h2]
  · have h6 : (n + 6) % 2 = n % 2 := by omega
    simp [mkContentSlide, h6]

/-! ## C8: cover bullets while the placeholder is active -/

/-- Outline with a cover placeholder followed by a subtitle bullet. -/
def c8Outline : Str := "## 封面\n- 副标题：测试".toList

/-- C8 divergence, evaluated: because "标题" is a substring of "副标题",
the title branch fires on a 副标题 bullet, so the cover TITLE becomes
"测试" while the subtitle stays at its default — the dedicated 副标题
branch of the source is unreachable. -/
theorem subtitle_bullet_overrides_title :
    ((parse_outline_to_json c8Outline).slides.getD 0 placeholderSlide).title =
      "测试".toList ∧
    ((parse_outline_to_json c8Outline).slides.getD 0 placeholderSlide).subtitle =
      some ("专业培训课程".toList) := by
  refine ⟨by decide, by decide⟩
